import Mathlib

/-!
# Verification of the Text_Analysis document chat program

A shallow embedding of `src/main.py` (document loader, chunker, chunk
selector, question classifier, response composer, summarizer, chat loop)
together with theorems settling the specification claims.

Text is modelled as `List Char`; Python's `str.lower` as a character-wise
`Char.toLower` map, and Python's substring test `a in b` as contiguous
infix search.  The external ML pipelines (`qa_pipeline`, `summarizer`) are
opaque collaborators and are passed in as function parameters; fallible
collaborator calls return `Except`.  Python exceptions are modelled as
`Except.error` results that propagate.
-/

/-- Python `s.lower()` (character-wise). -/
def lowerStr (s : List Char) : List Char := s.map Char.toLower

/-- Python's substring test `needle in hay`: `true` iff `needle` occurs as a
contiguous infix of `hay` (the empty needle occurs in every string). -/
def substrIn (needle : List Char) : List Char → Bool
  | [] => needle.isEmpty
  | c :: rest => needle.isPrefixOf (c :: rest) || substrIn needle rest

/-- The chunking expression `[text[i:i+S] for i in range(0, len(text), S)]`
(lines 42 and 100 of `main.py`): `range(0, L, S)` has `⌈L / S⌉` elements
`0, S, 2·S, …`, and `text[i:i+S]` is `(text.drop i).take S`.
(`S = 0` raises in Python; here it yields `[]` and is outside every claim.) -/
def chunkList (S : Nat) (text : List α) : List (List α) :=
  (List.range ((text.length + S - 1) / S)).map fun j => (text.drop (j * S)).take S

/-- Python's `max(xs, key=k)` scan with a boolean key: the running best is
replaced only when the new key is strictly greater (`True > False`). -/
def pyMaxBoolGo (key : α → Bool) (best : α) : List α → α
  | [] => best
  | x :: xs => pyMaxBoolGo key (if key x && !key best then x else best) xs

/-- Python's `max(xs, key=k)` for a boolean key `k`: `none` models the
`ValueError` raised on an empty sequence. -/
def pyMaxBool (key : α → Bool) : List α → Option α
  | [] => none
  | x :: xs => some (pyMaxBoolGo key x xs)

/-- `find_best_chunk` (lines 98–102): chunk the text, then take the
`max` by the boolean key `query.lower() in chunk.lower()`.  `none` models
the `ValueError` raised by `max` on an empty chunk list. -/
def find_best_chunk (text query : List Char) (max_chunk_size : Nat := 1500) :
    Option (List Char) :=
  let chunks := chunkList max_chunk_size text
  pyMaxBool (fun chunk => substrIn (lowerStr query) (lowerStr chunk)) chunks

/-- `short_keywords` (line 56). -/
def short_keywords : List (List Char) :=
  ["who".toList, "when".toList, "where".toList, "how many".toList, "how much".toList]

/-- `long_keywords` (line 57). -/
def long_keywords : List (List Char) :=
  ["explain".toList, "describe".toList, "what are".toList, "how does".toList,
   "why".toList, "impact".toList, "effects".toList]

/-- `classify_question_length` (lines 54–64): short cues win, then long cues,
otherwise `"medium"`. -/
def classify_question_length (question : List Char) : String :=
  if short_keywords.any (fun keyword => substrIn keyword (lowerStr question)) then "short"
  else if long_keywords.any (fun keyword => substrIn keyword (lowerStr question)) then "long"
  else "medium"

/-- `summarize_document` (lines 38–52), with the summarization pipeline passed
in as an opaque collaborator `(text, max_length, min_length) ↦ summary_text`:
chunk at `max_chunk_size` (default 800), summarize each chunk with
`max_length=200, min_length=50`, and `" ".join` the results. -/
def summarize_document (summarizer : List Char → Nat → Nat → String)
    (text : List Char) (max_chunk_size : Nat := 800) : String :=
  let chunks := chunkList max_chunk_size text
  let summary_texts := chunks.map fun chunk => summarizer chunk 200 50
  String.intercalate " " summary_texts

/-- The two external model pipelines of the chat loop, as fallible opaque
collaborators: `qa q ctx` models `qa_pipeline(question=q, context=ctx)["answer"]`
and `summarizer t maxL minL` models
`summarizer(t, max_length=maxL, min_length=minL)[0]["summary_text"]`;
`Except.error` models a raised exception. -/
structure Collaborators (ε : Type) where
  qa : List Char → List Char → Except ε String
  summarizer : List Char → Nat → Nat → Except ε String

/-- `summarize_text` (lines 93–96): a direct call into the summarization
collaborator with the given length band. -/
def summarize_text (summarizer : List Char → Nat → Nat → Except ε String)
    (text : List Char) (max_length : Nat := 300) (min_length : Nat := 100) :
    Except ε String :=
  summarizer text max_length min_length

/-- A record of one collaborator invocation made while handling a query. -/
inductive CollabCall
  | qaCall (question context : List Char)
  | summCall (text : List Char) (max_length min_length : Nat)
deriving DecidableEq

/-- The per-query outcome printed by the chat loop. -/
inductive Response
  | goodbye
  | shortAnswer (answer : String)
  | longAnswer (answer : String)
  | mediumAnswer (answer : String)
deriving DecidableEq

/-- A Python exception escaping the body of the chat loop: either the
`ValueError` from `max()` on an empty chunk sequence inside
`find_best_chunk`, or an exception raised by a collaborator. -/
inductive ChatError (ε : Type)
  | emptyChunks
  | collab (e : ε)
deriving DecidableEq

/-- One iteration of the `while True` body of `chat_with_document`
(lines 70–91) on the query read from the prompt.  Returns the outcome
(`Except.error` models an uncaught exception escaping the body) together
with the list of collaborator invocations made.  The code checks the exit
sentinel, classifies, selects a chunk, then dispatches; there is no
`try`/`except` anywhere in the loop, so a collaborator error propagates. -/
def chat_step (C : Collaborators ε) (text query : List Char)
    (max_chunk_size : Nat := 1500) :
    Except (ChatError ε) Response × List CollabCall :=
  if lowerStr query = "exit".toList then
    (Except.ok Response.goodbye, [])
  else
    let answer_length := classify_question_length query
    match find_best_chunk text query max_chunk_size with
    | none => (Except.error ChatError.emptyChunks, [])
    | some best_chunk =>
      if answer_length = "short" then
        (((C.qa query best_chunk).map Response.shortAnswer).mapError ChatError.collab,
         [CollabCall.qaCall query best_chunk])
      else if answer_length = "long" then
        (((summarize_text C.summarizer best_chunk 500 150).map Response.longAnswer).mapError
           ChatError.collab,
         [CollabCall.summCall best_chunk 500 150])
      else
        (((summarize_text C.summarizer best_chunk 300 100).map Response.mediumAnswer).mapError
           ChatError.collab,
         [CollabCall.summCall best_chunk 300 100])

/-- `chat_with_document` (lines 66–91) run on a finite stream of user
inputs: process queries in order until the exit sentinel breaks the loop
(leaving later inputs unread) or an uncaught exception terminates it;
returns the responses printed, or the escaping exception. -/
def chat_loop (C : Collaborators ε) (text : List Char) (max_chunk_size : Nat) :
    List (List Char) → Except (ChatError ε) (List Response)
  | [] => Except.ok []
  | query :: rest =>
    match chat_step C text query max_chunk_size with
    | (Except.error e, _) => Except.error e
    | (Except.ok Response.goodbye, _) => Except.ok [Response.goodbye]
    | (Except.ok r, _) =>
      match chat_loop C text max_chunk_size rest with
      | Except.error e => Except.error e
      | Except.ok rs => Except.ok (r :: rs)

/-- Python's `s.split(sep)` for a one-character separator: split at every
occurrence, keeping empty parts (`"".split(".") == [""]`). -/
def pySplit (sep : Char) : List Char → List (List Char)
  | [] => [[]]
  | c :: rest =>
    let r := pySplit sep rest
    if c = sep then [] :: r
    else
      match r with
      | [] => [[c]]
      | w :: ws => (c :: w) :: ws

/-- `load_document` (lines 25–36), with the three extraction routines (PDF,
DOCX, TXT — external parsing libraries) passed in as opaque collaborators:
`ext = file_path.split(".")[-1].lower()`, then dispatch on `ext`; any other
extension returns `None` (here `none`) after printing an error. -/
def load_document (extract_text_from_pdf extract_text_from_docx extract_text_from_txt :
    List Char → String) (file_path : List Char) : Option String :=
  let ext := lowerStr ((pySplit '.' file_path).getLastD [])
  if ext = "pdf".toList then some (extract_text_from_pdf file_path)
  else if ext = "docx".toList then some (extract_text_from_docx file_path)
  else if ext = "txt".toList then some (extract_text_from_txt file_path)
  else none

/-- Python truthiness of `document_text` at line 111: `None` and the empty
string are falsy. -/
def py_truthy : Option String → Bool
  | none => false
  | some t => !t.isEmpty

/-- The steps guarded by `if document_text:` in `__main__` (lines 110–114). -/
inductive MainStep
  | successMessage
  | summarize
  | chatLoop
deriving DecidableEq

/-- The tail of `__main__` (lines 110–114) after `load_document` returns:
when the loaded text is truthy, print the success message, summarize, and
enter the chat loop; otherwise do none of these. -/
def main_actions (document_text : Option String) : List MainStep :=
  if py_truthy document_text then
    [MainStep.successMessage, MainStep.summarize, MainStep.chatLoop]
  else []

/-! ## Chunker lemmas -/

theorem chunkList_nil (S : Nat) : chunkList S ([] : List α) = [] := by
  unfold chunkList
  rcases Nat.eq_zero_or_pos S with rfl | hS
  · simp
  · simp [Nat.div_eq_of_lt (by omega : S - 1 < S)]

theorem chunkList_cons {S : Nat} (hS : S ≠ 0) (t : List α) (ht : t ≠ []) :
    chunkList S t = t.take S :: chunkList S (t.drop S) := by
  have hS' : 0 < S := Nat.pos_of_ne_zero hS
  have hlen : 0 < t.length := List.length_pos.mpr ht
  have hcount : (t.length + S - 1) / S = ((t.drop S).length + S - 1) / S + 1 := by
    rw [List.length_drop]
    rcases Nat.lt_or_ge t.length S with hlt | hge
    · have h1 : t.length - S = 0 := by omega
      have h2 : t.length + S - 1 = (t.length - 1) + S := by omega
      rw [h1, h2, Nat.add_div_right _ hS']
      have : (t.length - 1) / S = 0 := Nat.div_eq_of_lt (by omega)
      have hz : (0 + S - 1) / S = 0 := Nat.div_eq_of_lt (by omega)
      omega
    · have h2 : t.length + S - 1 = (t.length - S + S - 1) + S := by omega
      rw [h2, Nat.add_div_right _ hS']
  unfold chunkList
  rw [hcount, List.range_succ_eq_map, List.map_cons, List.map_map]
  congr 1
  · simp
  · apply List.map_congr_left
    intro j _
    simp only [Function.comp_apply, Nat.succ_eq_add_one]
    congr 1
    rw [List.drop_drop]
    congr 1
    ring

theorem chunkList_eq_nil_iff {S : Nat} (hS : S ≠ 0) (t : List α) :
    chunkList S t = [] ↔ t = [] := by
  constructor
  · intro h
    by_contra ht
    rw [chunkList_cons hS t ht] at h
    exact List.cons_ne_nil _ _ h
  · rintro rfl
    exact chunkList_nil S

theorem chunkList_join {S : Nat} (hS : S ≠ 0) (t : List α) :
    (chunkList S t).flatten = t := by
  have H : ∀ n (t : List α), t.length ≤ n → (chunkList S t).flatten = t := by
    intro n
    induction n with
    | zero =>
      intro t h
      have : t = [] := List.eq_nil_of_length_eq_zero (Nat.le_zero.mp h)
      subst this
      simp [chunkList_nil]
    | succ n ih =>
      intro t hlen
      rcases eq_or_ne t [] with rfl | ht
      · simp [chunkList_nil]
      · rw [chunkList_cons hS t ht, List.flatten_cons,
          ih (t.drop S) (by
            rw [List.length_drop]
            have : 0 < t.length := List.length_pos.mpr ht
            have : 0 < S := Nat.pos_of_ne_zero hS
            omega)]
        exact List.take_append_drop S t
  exact H t.length t le_rfl

theorem chunkList_length_le {S : Nat} (t : List α) :
    ∀ c ∈ chunkList S t, c.length ≤ S := by
  intro c hc
  unfold chunkList at hc
  obtain ⟨j, _, rfl⟩ := List.mem_map.mp hc
  exact List.length_take_le _ _

theorem chunkList_dropLast_length {S : Nat} (hS : S ≠ 0) (t : List α) :
    ∀ c ∈ (chunkList S t).dropLast, c.length = S := by
  have H : ∀ n (t : List α), t.length ≤ n →
      ∀ c ∈ (chunkList S t).dropLast, c.length = S := by
    intro n
    induction n with
    | zero =>
      intro t h c hc
      have : t = [] := List.eq_nil_of_length_eq_zero (Nat.le_zero.mp h)
      subst this
      simp [chunkList_nil] at hc
    | succ n ih =>
      intro t hlen c hc
      rcases eq_or_ne t [] with rfl | ht
      · simp [chunkList_nil] at hc
      · rw [chunkList_cons hS t ht] at hc
        rcases eq_or_ne (t.drop S) [] with hdrop | hdrop
        · rw [hdrop, chunkList_nil] at hc
          simp at hc
        · have hrest : chunkList S (t.drop S) ≠ [] :=
            fun h => hdrop ((chunkList_eq_nil_iff hS _).mp h)
          rw [List.dropLast_cons_of_ne_nil hrest] at hc
          rcases List.mem_cons.mp hc with rfl | hc
          · have hgt : S < t.length := by
              have h0 : 0 < (t.drop S).length := List.length_pos.mpr hdrop
              rw [List.length_drop] at h0
              omega
            rw [List.length_take]
            omega
          · exact ih (t.drop S)
              (by
                rw [List.length_drop]
                have : 0 < t.length := List.length_pos.mpr ht
                have : 0 < S := Nat.pos_of_ne_zero hS
                omega) c hc
  exact H t.length t le_rfl

theorem chunkList_getLast?_length {S : Nat} (hS : S ≠ 0) (t : List α) (ht : t ≠ []) :
    ∃ c, (chunkList S t).getLast? = some c ∧
      c.length = if t.length % S = 0 then S else t.length % S := by
  have H : ∀ n (t : List α), t.length ≤ n → t ≠ [] →
      ∃ c, (chunkList S t).getLast? = some c ∧
        c.length = if t.length % S = 0 then S else t.length % S := by
    intro n
    induction n with
    | zero =>
      intro t h ht
      exact absurd (List.eq_nil_of_length_eq_zero (Nat.le_zero.mp h)) ht
    | succ n ih =>
      intro t hlen ht
      have hS' : 0 < S := Nat.pos_of_ne_zero hS
      have hpos : 0 < t.length := List.length_pos.mpr ht
      rw [chunkList_cons hS t ht]
      rcases eq_or_ne (t.drop S) [] with hdrop | hdrop
      · have hle : t.length ≤ S := by
          have := List.length_drop S t ▸ congrArg List.length hdrop
          simp only [List.length_nil] at this
          omega
        rw [hdrop, chunkList_nil]
        refine ⟨t.take S, rfl, ?_⟩
        rw [List.length_take, Nat.min_eq_right hle]
        rcases Nat.lt_or_ge t.length S with hlt | hge
        · rw [Nat.mod_eq_of_lt hlt, if_neg (by omega)]
        · have heq : t.length = S := le_antisymm hle hge
          rw [heq, Nat.mod_self, if_pos rfl]
      · have hgt : S < t.length := by
          have h0 : 0 < (t.drop S).length := List.length_pos.mpr hdrop
          rw [List.length_drop] at h0
          omega
        obtain ⟨c, hc, hclen⟩ := ih (t.drop S)
          (by rw [List.length_drop]; omega) hdrop
        have hrest : chunkList S (t.drop S) ≠ [] :=
          fun h => hdrop ((chunkList_eq_nil_iff hS _).mp h)
        obtain ⟨b, l, hbl⟩ := List.exists_cons_of_ne_nil hrest
        refine ⟨c, ?_, ?_⟩
        · rw [hbl, List.getLast?_cons_cons, ← hbl]
          exact hc
        · have hmod : (t.drop S).length % S = t.length % S := by
            rw [List.length_drop]
            have hsum : t.length - S + S = t.length := by omega
            calc (t.length - S) % S = (t.length - S + S) % S :=
                  (Nat.add_mod_right _ _).symm
              _ = t.length % S := by rw [hsum]
          rw [hmod] at hclen
          exact hclen
  exact H t.length t le_rfl ht

/-! ## Boolean-keyed `max` lemmas -/

theorem pyMaxBoolGo_of_true (key : α → Bool) (best : α) (hb : key best = true) :
    ∀ xs, pyMaxBoolGo key best xs = best := by
  intro xs
  induction xs with
  | nil => rfl
  | cons x xs ih =>
    simp only [pyMaxBoolGo, hb, Bool.not_true, Bool.and_false, if_neg Bool.false_ne_true]
    exact ih

theorem pyMaxBoolGo_of_false (key : α → Bool) (xs : List α) :
    ∀ best, key best = false → pyMaxBoolGo key best xs = (xs.find? key).getD best := by
  induction xs with
  | nil => intro best _; rfl
  | cons x xs ih =>
    intro best hb
    cases hx : key x with
    | true =>
      simp only [pyMaxBoolGo, hx, hb, Bool.not_false, Bool.and_true, if_true]
      rw [pyMaxBoolGo_of_true key x hx, List.find?_cons_of_pos _ hx]
      rfl
    | false =>
      simp only [pyMaxBoolGo, hx, hb, Bool.not_false, Bool.false_and, Bool.false_eq_true,
        if_false]
      rw [ih best hb, List.find?_cons_of_neg _ (by simp [hx])]

theorem pyMaxBool_eq_find?_or_head? (key : α → Bool) (xs : List α) :
    pyMaxBool key xs = (xs.find? key).or xs.head? := by
  cases xs with
  | nil => rfl
  | cons x xs =>
    cases hx : key x with
    | true =>
      rw [pyMaxBool, pyMaxBoolGo_of_true key x hx, List.find?_cons_of_pos _ hx]
      rfl
    | false =>
      rw [pyMaxBool, pyMaxBoolGo_of_false key xs x hx,
        List.find?_cons_of_neg _ (by simp [hx])]
      cases h : xs.find? key with
      | none => rfl
      | some y => rfl

/-! ## Claim theorems -/

/-- C1: for every non-empty document text and every query, `find_best_chunk`
returns the first chunk, in sequence order, whose lowercased text contains
the lowercased query as a substring (`List.find?` returns the first match);
if no chunk contains the query (`find?` is `none`), it returns the first
chunk of the sequence (`head?` of the non-empty chunk list). -/
theorem find_best_chunk_first_match (text query : List Char) (S : Nat)
    (hS : S ≠ 0) (ht : text ≠ []) :
    chunkList S text ≠ [] ∧
    find_best_chunk text query S =
      ((chunkList S text).find? fun chunk =>
        substrIn (lowerStr query) (lowerStr chunk)).or (chunkList S text).head? := by
  refine ⟨fun h => ht ((chunkList_eq_nil_iff hS _).mp h), ?_⟩
  unfold find_best_chunk
  exact pyMaxBool_eq_find?_or_head? _ _

/-- C1 witness: concrete instance where the second chunk contains the query. -/
theorem find_best_chunk_first_match_witness :
    chunkList 11 "The cat saton the mat today".toList ≠ [] ∧
    find_best_chunk "The cat saton the mat today".toList "MAT".toList 11 =
      ((chunkList 11 "The cat saton the mat today".toList).find? fun chunk =>
        substrIn (lowerStr "MAT".toList) (lowerStr chunk)).or
        (chunkList 11 "The cat saton the mat today".toList).head? :=
  find_best_chunk_first_match "The cat saton the mat today".toList "MAT".toList 11
    (by decide) (by decide)

/-- C3: for every text `T` and chunk size `S > 0`, the chunks of the
expression `text[i:i+S] for i in 0, S, 2S, …` concatenate back to `T`;
every chunk except possibly the last has length exactly `S`; the last
chunk has length `len(T) mod S` (or `S` when `S` divides `len(T)`); and
for empty `T` the chunk sequence is empty. -/
theorem chunkList_partition_spec (S : Nat) (T : List Char) (hS : 0 < S) :
    (chunkList S T).flatten = T ∧
    (∀ c ∈ (chunkList S T).dropLast, c.length = S) ∧
    chunkList S ([] : List Char) = [] ∧
    (T ≠ [] → ∃ c, (chunkList S T).getLast? = some c ∧
      c.length = if T.length % S = 0 then S else T.length % S) :=
  ⟨chunkList_join hS.ne' T, chunkList_dropLast_length hS.ne' T, chunkList_nil S,
   fun ht => chunkList_getLast?_length hS.ne' T ht⟩

/-- C3 witness: `S = 3`, `T = "abcdefgh"` (last chunk has length `8 mod 3 = 2`). -/
theorem chunkList_partition_spec_witness :
    (chunkList 3 "abcdefgh".toList).flatten = "abcdefgh".toList ∧
    (∀ c ∈ (chunkList 3 "abcdefgh".toList).dropLast, c.length = 3) ∧
    chunkList 3 ([] : List Char) = [] ∧
    ("abcdefgh".toList ≠ [] → ∃ c, (chunkList 3 "abcdefgh".toList).getLast? = some c ∧
      c.length = if "abcdefgh".toList.length % 3 = 0 then 3 else "abcdefgh".toList.length % 3) :=
  chunkList_partition_spec 3 "abcdefgh".toList (by decide)

/-- C4: `classify_question_length` returns `"short"` iff some short cue is a
substring of the lowercased query (so a query matching both lists is
`"short"`); `"long"` iff no short cue matches but some long cue does;
`"medium"` iff neither list matches. -/
theorem classify_question_length_spec (question : List Char) :
    (classify_question_length question = "short" ↔
      ∃ k ∈ short_keywords, substrIn k (lowerStr question) = true) ∧
    (classify_question_length question = "long" ↔
      (¬ (∃ k ∈ short_keywords, substrIn k (lowerStr question) = true) ∧
        ∃ k ∈ long_keywords, substrIn k (lowerStr question) = true)) ∧
    (classify_question_length question = "medium" ↔
      (¬ (∃ k ∈ short_keywords, substrIn k (lowerStr question) = true) ∧
        ¬ (∃ k ∈ long_keywords, substrIn k (lowerStr question) = true))) := by
  unfold classify_question_length
  cases hs : short_keywords.any fun keyword => substrIn keyword (lowerStr question) <;>
    cases hl : long_keywords.any fun keyword => substrIn keyword (lowerStr question) <;>
      simp_all [List.any_eq_true]

/-- C5: `summarize_document` at its default chunk size splits the document
into chunks of at most 800 characters that reconstruct the text, runs the
summarization collaborator on each chunk with `max_length=200, min_length=50`,
and joins the per-chunk summaries in chunk order with single spaces. -/
theorem summarize_document_spec (summarizer : List Char → Nat → Nat → String)
    (text : List Char) :
    summarize_document summarizer text 800 =
      String.intercalate " "
        ((chunkList 800 text).map fun chunk => summarizer chunk 200 50) ∧
    (chunkList 800 text).flatten = text ∧
    ∀ c ∈ chunkList 800 text, c.length ≤ 800 :=
  ⟨rfl, chunkList_join (by omega) text, chunkList_length_le text⟩

/-- C5 witness: a concrete summarizer and text. -/
theorem summarize_document_spec_witness :
    summarize_document (fun chunk _ _ => chunk.asString) "hello".toList 800 =
      String.intercalate " "
        ((chunkList 800 "hello".toList).map fun chunk => chunk.asString) ∧
    (chunkList 800 "hello".toList).flatten = "hello".toList ∧
    ∀ c ∈ chunkList 800 "hello".toList, c.length ≤ 800 :=
  summarize_document_spec (fun chunk _ _ => chunk.asString) "hello".toList

/-- C6: for a non-exit query, the composer dispatches on the classified
type: `"short"` invokes the question-answering collaborator with
`(query, selected chunk)` and surfaces its answer string verbatim;
`"long"` invokes the summarization collaborator on the chunk with
`max_length=500, min_length=150`; `"medium"` with `max_length=300,
min_length=100`. -/
theorem chat_step_dispatch (C : Collaborators ε) (text query : List Char)
    (S : Nat) (bc : List Char)
    (hexit : lowerStr query ≠ "exit".toList)
    (hbc : find_best_chunk text query S = some bc) :
    (classify_question_length query = "short" →
      chat_step C text query S =
        (((C.qa query bc).map Response.shortAnswer).mapError ChatError.collab,
         [CollabCall.qaCall query bc])) ∧
    (classify_question_length query = "long" →
      chat_step C text query S =
        (((summarize_text C.summarizer bc 500 150).map Response.longAnswer).mapError
           ChatError.collab, [CollabCall.summCall bc 500 150])) ∧
    (classify_question_length query = "medium" →
      chat_step C text query S =
        (((summarize_text C.summarizer bc 300 100).map Response.mediumAnswer).mapError
           ChatError.collab, [CollabCall.summCall bc 300 100])) := by
  unfold chat_step
  rw [if_neg hexit, hbc]
  refine ⟨fun h => ?_, fun h => ?_, fun h => ?_⟩ <;> simp [h]

/-- C6 witness: a short-class query on a one-chunk document. -/
theorem chat_step_dispatch_witness :
    (classify_question_length "who is he".toList = "short" →
      chat_step (⟨fun _ _ => Except.ok "ans", fun _ _ _ => Except.ok "sum"⟩ :
          Collaborators Unit) "hello".toList "who is he".toList 1500 =
        ((((⟨fun _ _ => Except.ok "ans", fun _ _ _ => Except.ok "sum"⟩ :
            Collaborators Unit).qa "who is he".toList "hello".toList).map
          Response.shortAnswer).mapError ChatError.collab,
         [CollabCall.qaCall "who is he".toList "hello".toList])) ∧
    (classify_question_length "who is he".toList = "long" →
      chat_step (⟨fun _ _ => Except.ok "ans", fun _ _ _ => Except.ok "sum"⟩ :
          Collaborators Unit) "hello".toList "who is he".toList 1500 =
        (((summarize_text (⟨fun _ _ => Except.ok "ans", fun _ _ _ => Except.ok "sum"⟩ :
            Collaborators Unit).summarizer "hello".toList 500 150).map
          Response.longAnswer).mapError ChatError.collab,
         [CollabCall.summCall "hello".toList 500 150])) ∧
    (classify_question_length "who is he".toList = "medium" →
      chat_step (⟨fun _ _ => Except.ok "ans", fun _ _ _ => Except.ok "sum"⟩ :
          Collaborators Unit) "hello".toList "who is he".toList 1500 =
        (((summarize_text (⟨fun _ _ => Except.ok "ans", fun _ _ _ => Except.ok "sum"⟩ :
            Collaborators Unit).summarizer "hello".toList 300 100).map
          Response.mediumAnswer).mapError ChatError.collab,
         [CollabCall.summCall "hello".toList 300 100])) :=
  chat_step_dispatch (⟨fun _ _ => Except.ok "ans", fun _ _ _ => Except.ok "sum"⟩ :
      Collaborators Unit) "hello".toList "who is he".toList 1500 "hello".toList
    (by decide) (by decide)

/-- C8: a query equal, case-insensitively, to `"exit"` makes the loop print
the farewell and terminate successfully, with no collaborator invocation
for that input (empty call list) and later inputs unread. -/
theorem chat_exit_spec (C : Collaborators ε) (text query : List Char)
    (rest : List (List Char)) (S : Nat) (hq : lowerStr query = "exit".toList) :
    chat_step C text query S = (Except.ok Response.goodbye, []) ∧
    chat_loop C text S (query :: rest) = Except.ok [Response.goodbye] := by
  have h1 : chat_step C text query S = (Except.ok Response.goodbye, []) := by
    unfold chat_step
    rw [if_pos hq]
  refine ⟨h1, ?_⟩
  unfold chat_loop
  rw [h1]

/-- C8 witness: `"ExIt"` exits even when every collaborator would fail. -/
theorem chat_exit_spec_witness :
    chat_step (⟨fun _ _ => Except.error (), fun _ _ _ => Except.error ()⟩ :
        Collaborators Unit) "doc".toList "ExIt".toList 1500 =
      (Except.ok Response.goodbye, []) ∧
    chat_loop (⟨fun _ _ => Except.error (), fun _ _ _ => Except.error ()⟩ :
        Collaborators Unit) "doc".toList 1500 ["ExIt".toList, "later".toList] =
      Except.ok [Response.goodbye] :=
  chat_exit_spec (⟨fun _ _ => Except.error (), fun _ _ _ => Except.error ()⟩ :
      Collaborators Unit) "doc".toList "ExIt".toList ["later".toList] 1500 (by decide)

/-- C9: `find_best_chunk` is partial on empty input: on the empty text the
chunk list is empty and the `max` call fails (`none`), while on any
non-empty text it succeeds; inside the chat loop a non-exit query over the
empty document hits exactly this failure. -/
theorem find_best_chunk_empty_partial (query : List Char) (S : Nat)
    (C : Collaborators Unit) (hS : S ≠ 0)
    (hexit : lowerStr query ≠ "exit".toList) :
    find_best_chunk [] query S = none ∧
    (∀ text : List Char, text ≠ [] → ∃ c, find_best_chunk text query S = some c) ∧
    chat_step C [] query S = (Except.error ChatError.emptyChunks, []) := by
  have h0 : find_best_chunk [] query S = none := by
    unfold find_best_chunk
    rw [chunkList_nil]
    rfl
  refine ⟨h0, ?_, ?_⟩
  · intro text ht
    unfold find_best_chunk
    rw [chunkList_cons hS text ht]
    exact ⟨_, rfl⟩
  · unfold chat_step
    rw [if_neg hexit, h0]

/-- C9 witness: the empty document fails, a one-character document succeeds,
and the chat step on the empty document reports the empty-sequence error. -/
theorem find_best_chunk_empty_partial_witness :
    find_best_chunk [] "who".toList 1500 = none ∧
    (∀ text : List Char, text ≠ [] → ∃ c, find_best_chunk text "who".toList 1500 = some c) ∧
    chat_step (⟨fun _ _ => Except.ok "ans", fun _ _ _ => Except.ok "sum"⟩ :
        Collaborators Unit) [] "who".toList 1500 =
      (Except.error ChatError.emptyChunks, []) :=
  find_best_chunk_empty_partial "who".toList 1500
    (⟨fun _ _ => Except.ok "ans", fun _ _ _ => Except.ok "sum"⟩ : Collaborators Unit)
    (by decide) (by decide)

/-- C7: a file path whose lowercased final dot-separated extension is not
`pdf`, `docx` or `txt` makes `load_document` return `none` without invoking
any extractor, and the run then skips the success message, summary and chat
loop. -/
theorem load_document_unsupported
    (extract_text_from_pdf extract_text_from_docx extract_text_from_txt : List Char → String)
    (file_path : List Char)
    (h : lowerStr ((pySplit '.' file_path).getLastD [])
      ∉ (["pdf".toList, "docx".toList, "txt".toList] : List (List Char))) :
    load_document extract_text_from_pdf extract_text_from_docx extract_text_from_txt
      file_path = none ∧
    main_actions (load_document extract_text_from_pdf extract_text_from_docx
      extract_text_from_txt file_path) = [] := by
  simp only [List.mem_cons, List.not_mem_nil, or_false, not_or] at h
  obtain ⟨h1, h2, h3⟩ := h
  have hl : load_document extract_text_from_pdf extract_text_from_docx
      extract_text_from_txt file_path = none := by
    unfold load_document
    rw [if_neg h1, if_neg h2, if_neg h3]
  rw [hl]
  exact ⟨rfl, rfl⟩

/-- C7 witness: the `.rtf` path from the spec's test list. -/
theorem load_document_unsupported_witness :
    load_document (fun _ => "pdf text") (fun _ => "docx text") (fun _ => "txt text")
      "notes.rtf".toList = none ∧
    main_actions (load_document (fun _ => "pdf text") (fun _ => "docx text")
      (fun _ => "txt text") "notes.rtf".toList) = [] :=
  load_document_unsupported (fun _ => "pdf text") (fun _ => "docx text")
    (fun _ => "txt text") "notes.rtf".toList (by decide)

/-- C10: a successfully extracted but empty document text is treated like a
load failure by the truthiness check at line 111: an empty `.txt` file loads
as `some ""`, yet the success message, summary and chat loop are all
skipped, exactly as for `none`; any non-empty text proceeds. -/
theorem empty_document_skipped
    (extract_text_from_pdf extract_text_from_docx : List Char → String) :
    load_document extract_text_from_pdf extract_text_from_docx (fun _ => "")
      "empty.txt".toList = some "" ∧
    main_actions (some "") = [] ∧
    main_actions none = [] ∧
    main_actions (some "x") =
      [MainStep.successMessage, MainStep.summarize, MainStep.chatLoop] := by
  refine ⟨?_, rfl, rfl, rfl⟩
  rfl

/-- C2 (code-bug evidence): the chat loop has no `try`/`except`, so a
failure raised by a collaborator while handling one query propagates and
terminates the loop — later queries are never processed — whereas with
healthy collaborators the same input stream yields an answer per query. -/
theorem chat_loop_collab_failure_terminates :
    chat_loop (⟨fun _ _ => Except.error (), fun _ _ _ => Except.ok "sum"⟩ :
        Collaborators Unit) "hello world".toList 1500
      ["who is x".toList, "who is y".toList] = Except.error (ChatError.collab ()) ∧
    chat_loop (⟨fun _ _ => Except.ok "ans", fun _ _ _ => Except.ok "sum"⟩ :
        Collaborators Unit) "hello world".toList 1500
      ["who is x".toList, "who is y".toList] =
      Except.ok [Response.shortAnswer "ans", Response.shortAnswer "ans"] :=
  ⟨rfl, rfl⟩
